import Mathlib

/-!
Verification of the Aura astrology backend (`src/app.py`) against its
specification.  The Python source is shallowly embedded: pure string
manipulation is translated to executable Lean functions over `String` /
`List Char`, the `functools.lru_cache` decorator becomes an explicit
state-passing LRU map, floating-point coordinate literals are represented
as exact rationals (every literal in the source is a short decimal, so the
representation is exact), and every external service (geocoder, timezone
finder, astrology engine, LLM endpoint) is an oracle parameter whose
outcomes - success, empty result, raised exception - are explicit values.
Fallible Python code (`int(...)`, `data['year']`, subject construction)
returns `Except`.
-/

namespace Aura

/-! ## Python string primitives (ASCII fragment)

Models of the `str` methods the source uses: `lower`, `strip`, `title`,
`split`, `replace` (with the two fixed patterns of the source) and the
`in` containment test.  All inputs in the program and in the claims are
ASCII, for which `Char.toLower` / `Char.isAlpha` agree with Python. -/

/-- Python whitespace for `str.strip()` (ASCII fragment: space, TAB, LF,
VT, FF, CR). -/
def pyIsSpace (c : Char) : Bool :=
  c = ' ' || c = '\t' || c = '\n' || c = Char.ofNat 11 || c = Char.ofNat 12 || c = '\r'

/-- `s.strip()` - remove leading and trailing whitespace. -/
def pyStrip (s : String) : String :=
  String.mk (((s.data.dropWhile pyIsSpace).reverse.dropWhile pyIsSpace).reverse)

/-- `s.lower()`. -/
def pyLower (s : String) : String :=
  String.mk (s.data.map Char.toLower)

/-- Character-level worker for `str.title()`: the boolean records whether
the previous character was alphabetic (inside a word). -/
def titleChars : Bool → List Char → List Char
  | _, [] => []
  | prevAlpha, c :: rest =>
    if c.isAlpha then
      (if prevAlpha then c.toLower else c.toUpper) :: titleChars true rest
    else
      c :: titleChars false rest

/-- `s.title()` - first letter of each alphabetic run uppercased, the rest
lowercased; non-letters are word boundaries and kept as is. -/
def pyTitle (s : String) : String :=
  String.mk (titleChars false s.data)

/-- Substring containment on character lists (Python `pat in s`),
scanning every suffix for a prefix match. -/
def containsSub (pat : List Char) : List Char → Bool
  | [] => pat.isEmpty
  | c :: rest => pat.isPrefixOf (c :: rest) || containsSub pat rest

/-- Python `pat in s` for strings. -/
def strContains (s pat : String) : Bool :=
  containsSub pat.data s.data

/-- `line.replace("SECTION_", "")`: delete every occurrence of the fixed
pattern `SECTION_`, left to right, non-overlapping. -/
def stripTag : List Char → List Char
  | 'S' :: 'E' :: 'C' :: 'T' :: 'I' :: 'O' :: 'N' :: '_' :: rest => stripTag rest
  | c :: rest => c :: stripTag rest
  | [] => []

/-- `line.replace(":", "")`: delete every colon. -/
def stripColons : List Char → List Char
  | [] => []
  | c :: rest => if c = ':' then stripColons rest else c :: stripColons rest

/-- The cleanup the parser applies to a content line:
`line.replace("SECTION_", "").replace(":", "")`. -/
def cleanLine (s : String) : String :=
  String.mk (stripColons (stripTag s.data))

/-- `text.split('\n')` on character lists: split at every newline, keeping
empty pieces (Python semantics). -/
def splitNl : List Char → List (List Char)
  | [] => [[]]
  | c :: rest =>
    if c = '\n' then [] :: splitNl rest
    else
      match splitNl rest with
      | [] => [[c]]
      | r :: rs => (c :: r) :: rs

/-- `text.split('\n')` for strings. -/
def pySplitLines (s : String) : List String :=
  (splitNl s.data).map String.mk

/-! ## Section Parser (`generate_chart`, lines 147-169)

The inline parsing loop of `generate_chart` is embedded as a fold of
`processLine` over the lines of the LLM answer. -/

/-- The seven section keys of the `results` dictionary. -/
inductive SectionName where
  | personality | love | career | future | life | number | color
deriving DecidableEq

/-- The `results` dictionary: seven string-valued fields. -/
structure AnalysisSections where
  personality : String
  love : String
  career : String
  future : String
  life : String
  number : String
  color : String
deriving DecidableEq

/-- The initial `results` value (lines 147-150). -/
def defaultResults : AnalysisSections :=
  { personality := "", love := "", career := "", future := "", life := ""
    number := "7", color := "Gold" }

/-- The marker substring of each section, as tested on lines 156-162. -/
def markerText : SectionName → String
  | .personality => "SECTION_PERSONALITY:"
  | .love => "SECTION_LOVE:"
  | .career => "SECTION_CAREER:"
  | .future => "SECTION_FUTURE:"
  | .life => "SECTION_LIFE_PATH:"
  | .number => "SECTION_LUCKY_NUMBER:"
  | .color => "SECTION_LUCKY_COLOR:"

/-- The `if`/`elif` marker chain of lines 156-162: the first section, in
source order, whose marker substring the (already stripped) line
contains. -/
def markerOf (line : String) : Option SectionName :=
  if strContains line "SECTION_PERSONALITY:" then some .personality
  else if strContains line "SECTION_LOVE:" then some .love
  else if strContains line "SECTION_CAREER:" then some .career
  else if strContains line "SECTION_FUTURE:" then some .future
  else if strContains line "SECTION_LIFE_PATH:" then some .life
  else if strContains line "SECTION_LUCKY_NUMBER:" then some .number
  else if strContains line "SECTION_LUCKY_COLOR:" then some .color
  else none

/-- Lines 166-169: `number` and `color` are overwritten with the cleaned
line, every other current section accumulates the cleaned line plus a
trailing space. -/
def updateResults (r : AnalysisSections) (sec : SectionName) (clean : String) :
    AnalysisSections :=
  match sec with
  | .number => { r with number := clean }
  | .color => { r with color := clean }
  | .personality => { r with personality := r.personality ++ clean ++ " " }
  | .love => { r with love := r.love ++ clean ++ " " }
  | .career => { r with career := r.career ++ clean ++ " " }
  | .future => { r with future := r.future ++ clean ++ " " }
  | .life => { r with life := r.life ++ clean ++ " " }

/-- Loop state of the parser: `current_section` plus `results`. -/
structure ParseState where
  cur : Option SectionName
  results : AnalysisSections
deriving DecidableEq

/-- One iteration of the `for line in analysis.split('\n')` loop
(lines 154-169): strip the line, test the marker chain, otherwise treat
the line as content when a cursor is set and the line is non-empty. -/
def processLine (st : ParseState) (rawLine : String) : ParseState :=
  let line := pyStrip rawLine
  match markerOf line with
  | some sec => ⟨some sec, st.results⟩
  | none =>
    match st.cur with
    | some sec =>
      if line ≠ "" then ⟨st.cur, updateResults st.results sec (cleanLine line)⟩
      else st
    | none => st

/-- The whole parsing phase (lines 147-169): start from the defaults; when
`analysis` is truthy (not `None` and not the empty string) fold the loop
body over its lines. -/
def parseSections (analysis : Option String) : AnalysisSections :=
  match analysis with
  | none => defaultResults
  | some text =>
    if text = "" then defaultResults
    else ((pySplitLines text).foldl processLine ⟨none, defaultResults⟩).results

/-! ## Location Resolver (`get_location_data`, lines 45-75)

Coordinates are exact decimal literals in the source and are represented
as rationals.  The geocoding and timezone providers are an oracle: the
geocoder either returns a location, returns `None`, or raises (any
exception anywhere inside the `try` block); the timezone finder returns
an optional IANA identifier. -/

/-- A resolved location: the dictionary
`{'lat': ..., 'lng': ..., 'tz': ..., 'city': ...}`. -/
structure LocationRecord where
  lat : Rat
  lng : Rat
  tz : String
  city : String
deriving DecidableEq

/-- One row of the `FALLBACK_CITIES` table. -/
structure FallbackEntry where
  lat : Rat
  lng : Rat
  tz : String
deriving DecidableEq

/-- The `FALLBACK_CITIES` table (lines 47-53). -/
def FALLBACK_CITIES : List (String × FallbackEntry) :=
  [("delhi", ⟨28.6139, 77.2090, "Asia/Kolkata"⟩),
   ("mumbai", ⟨19.0760, 72.8777, "Asia/Kolkata"⟩),
   ("bangalore", ⟨12.9716, 77.5946, "Asia/Kolkata"⟩),
   ("new york", ⟨40.7128, -74.0060, "America/New_York"⟩),
   ("london", ⟨51.5074, -0.1278, "Europe/London"⟩)]

/-- `clean_name in FALLBACK_CITIES` / `FALLBACK_CITIES[clean_name]`. -/
def lookupFallback (k : String) : Option FallbackEntry :=
  List.lookup k FALLBACK_CITIES

/-- Outcome of `geolocator.geocode(city_name)`: a location with latitude,
longitude and formatted address, `None`, or a raised exception. -/
inductive GeoResult where
  | found (latitude longitude : Rat) (address : String)
  | notFound
  | raised (msg : String)
deriving DecidableEq

/-- The external geocoding and timezone services. -/
structure GeoOracle where
  geocode : String → GeoResult
  timezoneAt : Rat → Rat → Option String

/-- Python `x or default` on an optional string: `None` and the empty
string are falsy. -/
def pyOrStr : Option String → String → String
  | none, d => d
  | some s, d => if s = "" then d else s

/-- `address.split(",")[0]`. -/
def firstSegment (s : String) : String :=
  String.mk (s.data.takeWhile (fun c => c ≠ ','))

/-- The hardcoded default of line 75. -/
def defaultLocation : LocationRecord :=
  { lat := 40.7128, lng := -74.0060, tz := "America/New_York", city := "New York" }

/-- Body of `get_location_data` (lines 46-75), without the cache
decorator.  Returns the record and whether the geocoding network path was
entered.  The function is total: every failure of the `try` block lands on
the default record, so the resolver never raises for a string input. -/
def get_location_data (geo : GeoOracle) (city_name : String) :
    LocationRecord × Bool :=
  match lookupFallback (pyStrip (pyLower city_name)) with
  | some entry =>
    ({ lat := entry.lat, lng := entry.lng, tz := entry.tz,
       city := pyTitle city_name }, false)
  | none =>
    match geo.geocode city_name with
    | GeoResult.found lat lng addr =>
      ({ lat := lat, lng := lng, tz := pyOrStr (geo.timezoneAt lng lat) "UTC",
         city := firstSegment addr }, true)
    | GeoResult.notFound => (defaultLocation, true)
    | GeoResult.raised _ => (defaultLocation, true)

/-! ### The `@lru_cache(maxsize=100)` decorator

The cache is a list of key/value pairs in most-recently-used-first order:
a hit moves the entry to the front, a miss runs the body, inserts the
result at the front and truncates to 100 entries (evicting the
least-recently-used one when full).  The key is the raw `city_name`
argument, exactly as `functools.lru_cache` hashes it. -/

/-- Cache contents, most recently used first. -/
abbrev CacheState := List (String × LocationRecord)

/-- Look a key up in the cache. -/
def cacheFind (k : String) : CacheState → Option LocationRecord
  | [] => none
  | (k2, v) :: rest => if k2 = k then some v else cacheFind k rest

/-- Remove the (first) entry with the given key. -/
def cacheErase (k : String) : CacheState → CacheState
  | [] => []
  | (k2, v) :: rest => if k2 = k then rest else (k2, v) :: cacheErase k rest

/-- Result of one call to the decorated function: the returned record, the
cache afterwards, whether the function body ran (cache miss), and whether
the geocoding network path was entered. -/
structure LruOutcome where
  value : LocationRecord
  cache : CacheState
  ranBody : Bool
  usedNetwork : Bool
deriving DecidableEq

/-- One call to the `lru_cache`-decorated `get_location_data`. -/
def lruGetLocation (geo : GeoOracle) (st : CacheState) (k : String) :
    LruOutcome :=
  match cacheFind k st with
  | some v => ⟨v, (k, v) :: cacheErase k st, false, false⟩
  | none =>
    let out := get_location_data geo k
    ⟨out.1, ((k, out.1) :: st).take 100, true, out.2⟩

/-- A cache is valid when every stored value is what the (deterministic)
body would produce for its key - the only states reachable by actual
calls. -/
def CacheValid (geo : GeoOracle) (st : CacheState) : Prop :=
  ∀ p ∈ st, p.2 = (get_location_data geo p.1).1

/-- A geocoder for concrete evaluations: never finds anything. -/
def noGeo : GeoOracle :=
  { geocode := fun _ => GeoResult.notFound, timezoneAt := fun _ _ => none }

/-- A geocoder for concrete evaluations: always raises. -/
def failGeo : GeoOracle :=
  { geocode := fun _ => GeoResult.raised "boom", timezoneAt := fun _ _ => none }

/-! ## LLM Gateway (`call_llm`, lines 27-43)

`LLM_AVAILABLE` and the truthiness of `groq_client` are module-level
facts; the network call is an oracle from the two prompts and the token
budget to either a completion text or a raised exception. -/

/-- Gateway configuration plus the behaviour of the completion call. -/
structure LlmConfig where
  available : Bool
  clientOk : Bool
  respond : String → String → Int → Except String String

/-- `call_llm` (lines 27-43): `None` when unconfigured, the completion
text on success, `None` on any exception. -/
def call_llm (cfg : LlmConfig) (system_prompt user_prompt : String)
    (max_tokens : Int) : Option String :=
  if !cfg.available || !cfg.clientOk then none
  else
    match cfg.respond system_prompt user_prompt max_tokens with
    | Except.ok text => some text
    | Except.error _ => none

/-! ## Request Handler (`generate_chart`, lines 81-183)

The request body is a parsed JSON dictionary over the value shapes the
handler distinguishes (strings and integers).  The astrology engine is an
oracle turning a moment and a location into a subject with named sign
placements, or a raised exception. -/

/-- A JSON value in the request dictionary. -/
inductive PyVal where
  | pyStr (s : String)
  | pyInt (n : Int)
deriving DecidableEq

/-- The parsed request body. -/
abbrev PyDict := List (String × PyVal)

/-- `data.get(k)` - `None` when the key is absent. -/
def dictGet (d : PyDict) (k : String) : Option PyVal :=
  List.lookup k d

/-- `data[k]` - raises `KeyError(k)`, whose `str` is the repr `'k'`. -/
def pyGetItem (d : PyDict) (k : String) : Except String PyVal :=
  match List.lookup k d with
  | some v => Except.ok v
  | none => Except.error ("'" ++ k ++ "'")

/-- Digit-list accumulator for `int(str)`. -/
def digitsVal (acc : Nat) : List Char → Option Nat
  | [] => some acc
  | c :: rest =>
    if c.isDigit then digitsVal (acc * 10 + (c.toNat - 48)) rest else none

/-- `int(s)` for a string: optional surrounding whitespace, optional
sign, then decimal digits; anything else raises `ValueError`. -/
def parsePyInt (s : String) : Option Int :=
  match (pyStrip s).data with
  | [] => none
  | '+' :: rest =>
    match rest with
    | [] => none
    | _ => (digitsVal 0 rest).map Int.ofNat
  | '-' :: rest =>
    match rest with
    | [] => none
    | _ => (digitsVal 0 rest).map (fun n => -(Int.ofNat n))
  | l => (digitsVal 0 l).map Int.ofNat

/-- `int(v)` on a JSON value. -/
def pyToInt : PyVal → Except String Int
  | PyVal.pyInt n => Except.ok n
  | PyVal.pyStr s =>
    match parsePyInt s with
    | some n => Except.ok n
    | none =>
      Except.error ("invalid literal for int() with base 10: '" ++ s ++ "'")

/-- `int(data[k])` - the conversion applied to a required field. -/
def intField (data : PyDict) (k : String) : Except String Int :=
  match pyGetItem data k with
  | Except.error e => Except.error e
  | Except.ok v => pyToInt v

/-- An astrological subject: the sign placements the handler reads. -/
structure Subject where
  sun : String
  moon : String
  firstHouse : String
  venus : String
  mars : String
  jupiter : String
  saturn : String
deriving DecidableEq

/-- The external astrology engine: `AstrologicalSubject(name, year,
month, day, hour, minute, city?, lat, lng, tz_str)`; construction may
raise. -/
structure AstroOracle where
  mkSubject : String → Int → Int → Int → Int → Int → Option String →
    Rat → Rat → String → Except String Subject

/-- Everything external to one request: the geocoder, the astrology
engine, the LLM gateway and the current wall-clock moment
(`datetime.now()`). -/
structure Env where
  geo : GeoOracle
  astro : AstroOracle
  llm : LlmConfig
  nowYear : Int
  nowMonth : Int
  nowDay : Int
  nowHour : Int
  nowMinute : Int

/-- The `system_prompt` string of lines 106-110. -/
def system_prompt : String :=
  "\n        You are a celebrity astrologer for a luxury magazine.\n" ++
  "        Write a comprehensive \"Book of You\" analysis.\n" ++
  "        Tone: Psychological, Empowering, Elegant. No cheesy newspaper horoscopes.\n        "

/-- The f-string `prompt` of lines 112-142, with the subjects' sign names
interpolated. -/
def buildPrompt (user skyNow : Subject) : String :=
  "\n        USER CHART:\n" ++
  "        Sun: " ++ user.sun ++ ", Moon: " ++ user.moon ++ ", Rising: " ++ user.firstHouse ++ "\n" ++
  "        Venus: " ++ user.venus ++ ", Mars: " ++ user.mars ++ ", Jupiter: " ++ user.jupiter ++ "\n" ++
  "        \n" ++
  "        CURRENT TRANSITS:\n" ++
  "        Sun: " ++ skyNow.sun ++ ", Moon: " ++ skyNow.moon ++ ", Saturn: " ++ skyNow.saturn ++ "\n" ++
  "\n" ++
  "        Provide analysis in these EXACT SECTIONS (do not use markdown bolding **):\n" ++
  "\n" ++
  "        SECTION_PERSONALITY:\n" ++
  "        (150 words. Describe their core character based on Sun/Moon/Rising blend. Deep psychological insight.)\n" ++
  "\n" ++
  "        SECTION_LOVE:\n" ++
  "        (100 words. Analyze Venus sign. How do they love? What partner suits them?)\n" ++
  "\n" ++
  "        SECTION_CAREER:\n" ++
  "        (100 words. Analyze Mars and Saturn. Their work style and path to success.)\n" ++
  "\n" ++
  "        SECTION_FUTURE:\n" ++
  "        (150 words. A predictive look at the next 6 months based on current Transits. What is the major theme?)\n" ++
  "\n" ++
  "        SECTION_LIFE_PATH:\n" ++
  "        (50 words. A spiritual summary of their life's purpose.)\n" ++
  "\n" ++
  "        SECTION_LUCKY_NUMBER:\n" ++
  "        (Just the number, e.g., \"7\")\n" ++
  "\n" ++
  "        SECTION_LUCKY_COLOR:\n" ++
  "        (Just the color name, e.g., \"Emerald Green\")\n        "

/-- The payload of a successful response (line 173-178). -/
structure ChartData where
  sun : String
  moon : String
  rising : String
  analysis : AnalysisSections
deriving DecidableEq

/-- A serialized response body: either the success payload or the
`{'success': False, 'error': ...}` shape - by construction an error
response carries no chart data. -/
inductive RespBody where
  | success (data : ChartData)
  | failure (error : String)
deriving DecidableEq

/-- HTTP status plus body. -/
structure HttpResponse where
  status : Nat
  body : RespBody
deriving DecidableEq

/-- `data.get('city', 'New York')` (line 85). -/
def cityArg (data : PyDict) : PyVal :=
  match dictGet data "city" with
  | none => PyVal.pyStr "New York"
  | some v => v

/-- `data.get('name', 'User')` (line 89). -/
def nameArg (data : PyDict) : String :=
  match dictGet data "name" with
  | none => "User"
  | some (PyVal.pyStr s) => s
  | some (PyVal.pyInt n) => toString n

/-- `str(AttributeError)` raised when `get_location_data` receives a
non-string city value and calls `.lower()` on it. -/
def lowerAttrErr : String := "'int' object has no attribute 'lower'"

/-- Lines 88-178 of the handler after the location has been resolved:
convert the five required date fields with `int(data[...])`, build the
two subjects, call the LLM, parse the sections and assemble the payload.
Every step's exception is an `Except.error` that the top-level handler
turns into the 500 response. -/
def restOfPipeline (env : Env) (data : PyDict) (loc : LocationRecord) :
    Except String ChartData :=
  match intField data "year" with
  | Except.error e => Except.error e
  | Except.ok year =>
  match intField data "month" with
  | Except.error e => Except.error e
  | Except.ok month =>
  match intField data "day" with
  | Except.error e => Except.error e
  | Except.ok day =>
  match intField data "hour" with
  | Except.error e => Except.error e
  | Except.ok hour =>
  match intField data "minute" with
  | Except.error e => Except.error e
  | Except.ok minute =>
  match env.astro.mkSubject (nameArg data) year month day hour minute
      (some loc.city) loc.lat loc.lng loc.tz with
  | Except.error e => Except.error e
  | Except.ok user =>
  match env.astro.mkSubject "Now" env.nowYear env.nowMonth env.nowDay
      env.nowHour env.nowMinute none loc.lat loc.lng loc.tz with
  | Except.error e => Except.error e
  | Except.ok skyNow =>
    let analysis := call_llm env.llm system_prompt (buildPrompt user skyNow) 2500
    Except.ok { sun := user.sun, moon := user.moon, rising := user.firstHouse,
                analysis := parseSections analysis }

/-- What the `try` block of the handler computes, viewed as an
exception-or-value: the city argument must be a string (otherwise
`.lower()` inside the resolver raises), then the rest of the pipeline
runs on the resolved location. -/
def pipelineOutcome (env : Env) (st : CacheState) (data : PyDict) :
    Except String ChartData :=
  match cityArg data with
  | PyVal.pyInt _ => Except.error lowerAttrErr
  | PyVal.pyStr c => restOfPipeline env data (lruGetLocation env.geo st c).value

/-- Observable effect of one `POST /api/chart` request: the HTTP
response, the resolver cache afterwards, and whether a geocoding network
call happened. -/
structure HandlerResult where
  resp : HttpResponse
  cache : CacheState
  usedNetwork : Bool
deriving DecidableEq

/-- `generate_chart` (lines 81-183): run the pipeline; any raised
exception is caught at the top and becomes the 500 error body.  The cache
mutation of the resolver survives either way. -/
def generate_chart (env : Env) (st : CacheState) (data : PyDict) :
    HandlerResult :=
  match cityArg data with
  | PyVal.pyInt _ => ⟨⟨500, RespBody.failure lowerAttrErr⟩, st, false⟩
  | PyVal.pyStr c =>
    match restOfPipeline env data (lruGetLocation env.geo st c).value with
    | Except.ok d =>
      ⟨⟨200, RespBody.success d⟩, (lruGetLocation env.geo st c).cache,
       (lruGetLocation env.geo st c).usedNetwork⟩
    | Except.error e =>
      ⟨⟨500, RespBody.failure e⟩, (lruGetLocation env.geo st c).cache,
       (lruGetLocation env.geo st c).usedNetwork⟩

/-- An astrology engine for concrete evaluations: always raises. -/
def failAstro : AstroOracle :=
  ⟨fun _ _ _ _ _ _ _ _ _ _ => Except.error "astro error"⟩

/-- A fixed subject for concrete evaluations. -/
def subj0 : Subject :=
  ⟨"Leo", "Cancer", "Virgo", "Libra", "Aries", "Taurus", "Capricorn"⟩

/-- An astrology engine for concrete evaluations: always succeeds with
`subj0`. -/
def okAstro : AstroOracle :=
  ⟨fun _ _ _ _ _ _ _ _ _ _ => Except.ok subj0⟩

/-- An unconfigured LLM gateway (`GROQ_API_KEY` absent / import failed). -/
def offLlm : LlmConfig :=
  ⟨false, false, fun _ _ _ => Except.error "unavailable"⟩

/-- A fully failing environment for concrete evaluations. -/
def testEnv : Env :=
  ⟨noGeo, failAstro, offLlm, 2025, 1, 1, 0, 0⟩

/-- An environment whose astrology engine succeeds. -/
def okEnv : Env :=
  ⟨noGeo, okAstro, offLlm, 2025, 1, 1, 0, 0⟩

/-- A request body for concrete evaluations: a fallback-table city and
the five required integer date fields. -/
def reqDelhi : PyDict :=
  [("city", PyVal.pyStr "delhi"), ("year", PyVal.pyInt 1990),
   ("month", PyVal.pyInt 5), ("day", PyVal.pyInt 17),
   ("hour", PyVal.pyInt 8), ("minute", PyVal.pyInt 30)]

/-! ## Theorems about the Section Parser -/

/-- C6: The Section Parser, given absent (`None`) input, returns exactly
the default `AnalysisSections`: the five text fields empty, `number = "7"`
and `color = "Gold"`. -/
theorem parse_none_defaults :
    parseSections none =
      { personality := "", love := "", career := "", future := "",
        life := "", number := "7", color := "Gold" } := rfl

/-- C2: within a section, `number` and `color` are overwritten by each
content line (last one wins) while every other field accumulates content
lines each followed by a trailing space; on the spec's example text the
parser yields `personality = "Hello world. "`, `number = "9"` (the second
`9` line overwrites the first, not `"99"`) and `color = "Blue"`. -/
theorem parser_overwrite_and_accumulate :
    (∀ (r : AnalysisSections) (v : String),
      updateResults r SectionName.number v = { r with number := v } ∧
      updateResults r SectionName.color v = { r with color := v } ∧
      updateResults r SectionName.personality v =
        { r with personality := r.personality ++ v ++ " " } ∧
      updateResults r SectionName.love v = { r with love := r.love ++ v ++ " " } ∧
      updateResults r SectionName.career v =
        { r with career := r.career ++ v ++ " " } ∧
      updateResults r SectionName.future v =
        { r with future := r.future ++ v ++ " " } ∧
      updateResults r SectionName.life v = { r with life := r.life ++ v ++ " " }) ∧
    parseSections
        (some "SECTION_PERSONALITY:\nHello world.\nSECTION_LUCKY_NUMBER:\n9\n9\nSECTION_LUCKY_COLOR:\nBlue") =
      { personality := "Hello world. ", love := "", career := "", future := "",
        life := "", number := "9", color := "Blue" } :=
  ⟨fun _ _ => ⟨rfl, rfl, rfl, rfl, rfl, rfl, rfl⟩, by decide⟩

/-- Unfolding lemma for `processLine` with the stripped line
substituted. -/
theorem processLine_eq (st : ParseState) (line : String) :
    processLine st line =
      match markerOf (pyStrip line) with
      | some sec => ⟨some sec, st.results⟩
      | none =>
        match st.cur with
        | some sec =>
          if pyStrip line ≠ "" then
            ⟨st.cur, updateResults st.results sec (cleanLine (pyStrip line))⟩
          else st
        | none => st := rfl

/-- C3: a line whose stripped form contains one of the seven marker
substrings (matched by containment, via the source's `if`/`elif` chain)
sets the cursor to that section and contributes nothing to any section's
content. -/
theorem marker_line_sets_cursor (st : ParseState) (line : String)
    (sec : SectionName) (h : markerOf (pyStrip line) = some sec) :
    processLine st line = ⟨some sec, st.results⟩ ∧
    strContains (pyStrip line) (markerText sec) = true := by
  constructor
  · rw [processLine_eq, h]
  · unfold markerOf at h
    split_ifs at h with h1 h2 h3 h4 h5 h6 h7 <;> (cases h; assumption)

/-- Witness for C3 at a line with leading narrative text before the
marker: containment still triggers the section change. -/
theorem marker_line_sets_cursor_witness :
    markerOf (pyStrip "He said SECTION_LOVE: loudly") = some SectionName.love ∧
    processLine ⟨some SectionName.personality, defaultResults⟩
        "He said SECTION_LOVE: loudly" = ⟨some SectionName.love, defaultResults⟩ ∧
    strContains (pyStrip "He said SECTION_LOVE: loudly")
        (markerText SectionName.love) = true := by
  have h := marker_line_sets_cursor ⟨some SectionName.personality, defaultResults⟩
    "He said SECTION_LOVE: loudly" SectionName.love (by decide)
  exact ⟨by decide, h.1, h.2⟩

/-- C7: a non-marker line is ignored when no cursor is set or when its
stripped form is empty; otherwise it is stored into the current section
after the cleanup that deletes the occurrences of `"SECTION_"` and then
of `":"`. -/
theorem content_line_rules (st : ParseState) (line : String)
    (h : markerOf (pyStrip line) = none) :
    (st.cur = none → processLine st line = st) ∧
    (pyStrip line = "" → processLine st line = st) ∧
    (∀ sec, st.cur = some sec → pyStrip line ≠ "" →
      processLine st line =
        ⟨some sec, updateResults st.results sec (cleanLine (pyStrip line))⟩) := by
  refine ⟨?_, ?_, ?_⟩
  · intro hcur
    rw [processLine_eq, h, hcur]
  · intro hempty
    rw [processLine_eq, h]
    cases hcur : st.cur with
    | none => rfl
    | some sec => simp [hempty]
  · intro sec hcur hne
    rw [processLine_eq, h, hcur]
    simp [hne]

/-- Witness for C7 at a content line holding both a colon and a stray
`SECTION_` fragment. -/
theorem content_line_rules_witness :
    markerOf (pyStrip "  Strategy: SECTION_ work  ") = none ∧
    pyStrip "  Strategy: SECTION_ work  " ≠ "" ∧
    processLine ⟨some SectionName.career, defaultResults⟩
        "  Strategy: SECTION_ work  " =
      ⟨some SectionName.career,
       updateResults defaultResults SectionName.career "Strategy  work"⟩ := by
  have h := content_line_rules ⟨some SectionName.career, defaultResults⟩
    "  Strategy: SECTION_ work  " (by decide)
  exact ⟨by decide, by decide, h.2.2 SectionName.career rfl (by decide)⟩

/-! ## Theorems about the Location Resolver and its cache -/

/-- Unfolding lemma for `lruGetLocation`. -/
theorem lruGetLocation_eq (geo : GeoOracle) (st : CacheState) (k : String) :
    lruGetLocation geo st k =
      match cacheFind k st with
      | some v => ⟨v, (k, v) :: cacheErase k st, false, false⟩
      | none =>
        ⟨(get_location_data geo k).1,
         ((k, (get_location_data geo k).1) :: st).take 100, true,
         (get_location_data geo k).2⟩ := rfl

/-- Erasing a key that is present strictly shrinks the cache. -/
theorem cacheErase_length_lt (k : String) (st : CacheState)
    (v : LocationRecord) (h : cacheFind k st = some v) :
    (cacheErase k st).length < st.length := by
  induction st with
  | nil => simp [cacheFind] at h
  | cons p rest ih =>
    obtain ⟨k2, v2⟩ := p
    by_cases hk : k2 = k
    · simp [cacheErase, hk]
    · rw [cacheFind, if_neg hk] at h
      rw [cacheErase, if_neg hk]
      simpa using ih h

/-- In a valid cache, a hit returns exactly what the body computes. -/
theorem cacheFind_valid (geo : GeoOracle) {st : CacheState}
    (hv : CacheValid geo st) {k : String} {v : LocationRecord}
    (h : cacheFind k st = some v) : v = (get_location_data geo k).1 := by
  induction st with
  | nil => simp [cacheFind] at h
  | cons p rest ih =>
    obtain ⟨k2, v2⟩ := p
    by_cases hk : k2 = k
    · rw [cacheFind, if_pos hk] at h
      injection h with hvv
      have h2 := hv (k2, v2) (List.mem_cons_self _ _)
      rw [hk] at h2
      rw [← hvv]
      exact h2
    · rw [cacheFind, if_neg hk] at h
      exact ih (fun q hq => hv q (List.mem_cons_of_mem _ hq)) h

/-- On a valid cache the decorated resolver returns what the undecorated
body returns. -/
theorem lru_value_valid (geo : GeoOracle) (st : CacheState) (k : String)
    (hv : CacheValid geo st) :
    (lruGetLocation geo st k).value = (get_location_data geo k).1 := by
  rw [lruGetLocation_eq]
  cases hf : cacheFind k st with
  | some v => exact cacheFind_valid geo hv hf
  | none => rfl

/-- A fallback-table hit never enters the geocoding network path - on a
miss the body short-circuits before the `try` block, on a hit nothing
runs at all. -/
theorem lru_fallback_noNetwork (geo : GeoOracle) (st : CacheState)
    (k : String) (e : FallbackEntry)
    (hfb : lookupFallback (pyStrip (pyLower k)) = some e) :
    (lruGetLocation geo st k).usedNetwork = false := by
  rw [lruGetLocation_eq]
  cases hf : cacheFind k st with
  | some v => rfl
  | none =>
    show (get_location_data geo k).2 = false
    unfold get_location_data
    rw [hfb]

/-- The fallback branch of `get_location_data` (lines 55-58), for any
oracle: table coordinates and timezone, `city` title-cased from the
input argument, no network use. -/
theorem get_location_fallback (geo : GeoOracle) (name : String)
    (e : FallbackEntry) (hfb : lookupFallback (pyStrip (pyLower name)) = some e) :
    get_location_data geo name =
      ({ lat := e.lat, lng := e.lng, tz := e.tz, city := pyTitle name }, false) := by
  unfold get_location_data
  rw [hfb]

/-- Counterexample to C1 as stated: the cache key is the raw argument,
not its lowercase-trimmed form.  `"delhi"` and `"Delhi "` have the same
lowercase-trimmed form, yet the second call after the first still runs
the resolver body (a second underlying lookup) and returns a different
record (its `city` is `"Delhi "`, not `"Delhi"`). -/
theorem cache_lowercase_key_counterexample :
    pyStrip (pyLower "Delhi ") = pyStrip (pyLower "delhi") ∧
    (lruGetLocation noGeo (lruGetLocation noGeo [] "delhi").cache "Delhi ").ranBody = true ∧
    (lruGetLocation noGeo (lruGetLocation noGeo [] "delhi").cache "Delhi ").value ≠
      (lruGetLocation noGeo [] "delhi").value := by
  refine ⟨by decide, rfl, fun h => ?_⟩
  exact absurd (congrArg LocationRecord.city h) (by decide)

/-- C1 (amended): the resolver memoizes keyed by the exact raw input
string: an immediately repeated call with the same exact string returns
the same record without running the body again, a call never grows the
cache beyond 100 entries, and a miss pushes the new entry to the front
and truncates to the 100 most recently used (evicting the
least-recently-used entry when full). -/
theorem cache_exact_key_memoization (geo : GeoOracle) (st : CacheState)
    (k : String) :
    (lruGetLocation geo (lruGetLocation geo st k).cache k).value =
      (lruGetLocation geo st k).value ∧
    (lruGetLocation geo (lruGetLocation geo st k).cache k).ranBody = false ∧
    (st.length ≤ 100 → (lruGetLocation geo st k).cache.length ≤ 100) ∧
    (cacheFind k st = none →
      (lruGetLocation geo st k).cache =
        ((k, (get_location_data geo k).1) :: st).take 100) := by
  cases hf : cacheFind k st with
  | some v =>
    have h1 : lruGetLocation geo st k = ⟨v, (k, v) :: cacheErase k st, false, false⟩ := by
      rw [lruGetLocation_eq, hf]
    have h2 : cacheFind k ((k, v) :: cacheErase k st) = some v := by
      rw [cacheFind, if_pos rfl]
    have h3 : lruGetLocation geo ((k, v) :: cacheErase k st) k =
        ⟨v, (k, v) :: cacheErase k ((k, v) :: cacheErase k st), false, false⟩ := by
      rw [lruGetLocation_eq, h2]
    refine ⟨by rw [h1]; rw [h3], by rw [h1]; rw [h3], ?_, ?_⟩
    · intro hlen
      rw [h1]
      have h4 := cacheErase_length_lt k st v hf
      simp only [List.length_cons]
      omega
    · intro hn
      exact Option.noConfusion hn
  | none =>
    have h1 : lruGetLocation geo st k =
        ⟨(get_location_data geo k).1,
         ((k, (get_location_data geo k).1) :: st).take 100, true,
         (get_location_data geo k).2⟩ := by
      rw [lruGetLocation_eq, hf]
    have htake : ((k, (get_location_data geo k).1) :: st).take 100 =
        (k, (get_location_data geo k).1) :: st.take 99 := rfl
    have h2 : cacheFind k ((k, (get_location_data geo k).1) :: st.take 99) =
        some (get_location_data geo k).1 := by
      rw [cacheFind, if_pos rfl]
    have h3 : lruGetLocation geo ((k, (get_location_data geo k).1) :: st.take 99) k =
        ⟨(get_location_data geo k).1,
         (k, (get_location_data geo k).1) ::
           cacheErase k ((k, (get_location_data geo k).1) :: st.take 99),
         false, false⟩ := by
      rw [lruGetLocation_eq, h2]
    refine ⟨?_, ?_, ?_, fun _ => by rw [h1]⟩
    · rw [h1, htake, h3]
    · rw [h1, htake, h3]
    · intro hlen
      rw [h1]
      exact List.length_take_le 100 _

/-- Witness for C1 (amended) at an empty cache and the key `"paris"`. -/
theorem cache_exact_key_memoization_witness :
    (lruGetLocation noGeo (lruGetLocation noGeo [] "paris").cache "paris").value =
      (lruGetLocation noGeo [] "paris").value ∧
    (lruGetLocation noGeo (lruGetLocation noGeo [] "paris").cache "paris").ranBody = false ∧
    (lruGetLocation noGeo [] "paris").cache.length ≤ 100 ∧
    (lruGetLocation noGeo [] "paris").cache = [("paris", defaultLocation)] := by
  have h := cache_exact_key_memoization noGeo [] "paris"
  exact ⟨h.1, h.2.1, h.2.2.1 (by decide), (h.2.2.2 rfl).trans rfl⟩

/-- Counterexample to C4 as stated: for the input `"delhi "` (trailing
space) the fallback table is hit at key `"delhi"`, but the returned
`city` is the title-cased input `"Delhi "`, not the title-cased table key
`"Delhi"`. -/
theorem fallback_city_title_counterexample :
    pyStrip (pyLower "delhi ") = "delhi" ∧
    (get_location_data noGeo "delhi ").1.city = "Delhi " ∧
    pyTitle "delhi" = "Delhi" ∧ ("Delhi " : String) ≠ "Delhi" :=
  ⟨by decide, rfl, by decide, by decide⟩

/-- C4 (amended): when the lowercase-trimmed input matches a fallback
table key, the resolver returns that entry's coordinates and timezone
without entering the geocoding network path, and the `city` field is the
title-cased original input string. -/
theorem fallback_city_from_input (geo : GeoOracle) (name : String)
    (e : FallbackEntry) (hfb : lookupFallback (pyStrip (pyLower name)) = some e) :
    get_location_data geo name =
      ({ lat := e.lat, lng := e.lng, tz := e.tz, city := pyTitle name }, false) :=
  get_location_fallback geo name e hfb

/-- Witness for C4 (amended) at the input `"DELHI"`. -/
theorem fallback_city_from_input_witness :
    lookupFallback (pyStrip (pyLower "DELHI")) =
      some ⟨28.6139, 77.2090, "Asia/Kolkata"⟩ ∧
    get_location_data noGeo "DELHI" =
      ({ lat := 28.6139, lng := 77.2090, tz := "Asia/Kolkata", city := "Delhi" }, false) :=
  ⟨rfl, fallback_city_from_input noGeo "DELHI" ⟨28.6139, 77.2090, "Asia/Kolkata"⟩ rfl⟩

/-- C5: for an input missing from the fallback table whose geocoding
either raises or returns nothing, the resolver returns the hardcoded New
York default record (latitude 40.7128, longitude -74.0060, timezone
`America/New_York`, city `"New York"`).  The embedded resolver is a total
function, matching the contract that the resolver never raises for a
string input. -/
theorem geocode_failure_default (geo : GeoOracle) (name : String)
    (hfb : lookupFallback (pyStrip (pyLower name)) = none)
    (hgeo : geo.geocode name = GeoResult.notFound ∨
      ∃ m, geo.geocode name = GeoResult.raised m) :
    get_location_data geo name =
      ({ lat := 40.7128, lng := -74.0060, tz := "America/New_York",
         city := "New York" }, true) := by
  unfold get_location_data
  rw [hfb]
  rcases hgeo with hg | ⟨m, hg⟩ <;> (rw [hg]; rfl)

/-- Witness for C5 at the unknown city `"atlantis"` and a geocoder that
raises. -/
theorem geocode_failure_default_witness :
    lookupFallback (pyStrip (pyLower "atlantis")) = none ∧
    failGeo.geocode "atlantis" = GeoResult.raised "boom" ∧
    get_location_data failGeo "atlantis" =
      ({ lat := 40.7128, lng := -74.0060, tz := "America/New_York",
         city := "New York" }, true) :=
  ⟨rfl, rfl, geocode_failure_default failGeo "atlantis" rfl (Or.inr ⟨"boom", rfl⟩)⟩

/-! ## Theorems about the Request Handler -/

/-- `int(data[k])` on a present integer-valued field. -/
theorem intField_of_pyInt {data : PyDict} {k : String} {n : Int}
    (h : dictGet data k = some (PyVal.pyInt n)) :
    intField data k = Except.ok n := by
  unfold intField pyGetItem
  unfold dictGet at h
  rw [h]
  rfl

/-- Unfolding lemma for `pipelineOutcome` when the city argument is a
string. -/
theorem pipelineOutcome_str (env : Env) (st : CacheState) (data : PyDict)
    (c : String) (hc : cityArg data = PyVal.pyStr c) :
    pipelineOutcome env st data =
      restOfPipeline env data (lruGetLocation env.geo st c).value := by
  unfold pipelineOutcome
  rw [hc]

/-- Unfolding lemma for `pipelineOutcome` when the city argument is an
integer. -/
theorem pipelineOutcome_int (env : Env) (st : CacheState) (data : PyDict)
    (n : Int) (hc : cityArg data = PyVal.pyInt n) :
    pipelineOutcome env st data = Except.error lowerAttrErr := by
  unfold pipelineOutcome
  rw [hc]

/-- Unfolding lemma for `generate_chart` when the city argument is a
string. -/
theorem generate_chart_str (env : Env) (st : CacheState) (data : PyDict)
    (c : String) (hc : cityArg data = PyVal.pyStr c) :
    generate_chart env st data =
      match restOfPipeline env data (lruGetLocation env.geo st c).value with
      | Except.ok d =>
        ⟨⟨200, RespBody.success d⟩, (lruGetLocation env.geo st c).cache,
         (lruGetLocation env.geo st c).usedNetwork⟩
      | Except.error e =>
        ⟨⟨500, RespBody.failure e⟩, (lruGetLocation env.geo st c).cache,
         (lruGetLocation env.geo st c).usedNetwork⟩ := by
  unfold generate_chart
  rw [hc]

/-- Unfolding lemma for `generate_chart` when the city argument is an
integer. -/
theorem generate_chart_int (env : Env) (st : CacheState) (data : PyDict)
    (n : Int) (hc : cityArg data = PyVal.pyInt n) :
    generate_chart env st data = ⟨⟨500, RespBody.failure lowerAttrErr⟩, st, false⟩ := by
  unfold generate_chart
  rw [hc]

/-- C8: whenever the handler pipeline raises (missing or non-integer
required fields included), the response is HTTP 500 with the body
`{success: false, error: <message>}`, and by the shape of `RespBody` an
error response can never carry chart data. -/
theorem handler_error_response (env : Env) (st : CacheState) (data : PyDict)
    (e : String) (h : pipelineOutcome env st data = Except.error e) :
    (generate_chart env st data).resp = ⟨500, RespBody.failure e⟩ ∧
    ∀ d, (generate_chart env st data).resp.body ≠ RespBody.success d := by
  cases hc : cityArg data with
  | pyStr c =>
    rw [pipelineOutcome_str env st data c hc] at h
    rw [generate_chart_str env st data c hc, h]
    exact ⟨rfl, fun d hd => nomatch hd⟩
  | pyInt n =>
    rw [pipelineOutcome_int env st data n hc] at h
    injection h with he
    rw [generate_chart_int env st data n hc, ← he]
    exact ⟨rfl, fun d hd => nomatch hd⟩

/-- Witness for C8: a request missing the required `year` field raises
`KeyError('year')` and yields the 500 error body. -/
theorem handler_error_response_witness :
    pipelineOutcome testEnv [] [("city", PyVal.pyStr "delhi")] =
      Except.error "'year'" ∧
    (generate_chart testEnv [] [("city", PyVal.pyStr "delhi")]).resp =
      ⟨500, RespBody.failure "'year'"⟩ :=
  ⟨rfl, (handler_error_response testEnv [] [("city", PyVal.pyStr "delhi")]
    "'year'" rfl).1⟩

/-- C9: the LLM Gateway returns the `None` sentinel whenever it is
unconfigured or its call raises, and the pipeline still completes: a
valid birth request for a fallback-table city returns HTTP 200 with the
subject's (non-empty) sun, moon and rising signs and the seven analysis
fields at their defaults, without any geocoding network call. -/
theorem llm_failure_pipeline :
    (∀ (cfg : LlmConfig) (a b : String) (t : Int),
      (cfg.available = false ∨ cfg.clientOk = false ∨
        ∃ m, cfg.respond a b t = Except.error m) →
      call_llm cfg a b t = none) ∧
    (∀ (env : Env) (st : CacheState) (data : PyDict) (c : String)
       (fb : FallbackEntry) (y mo dy hr mins : Int) (u w : Subject),
      CacheValid env.geo st →
      cityArg data = PyVal.pyStr c →
      lookupFallback (pyStrip (pyLower c)) = some fb →
      env.llm.available = false →
      dictGet data "year" = some (PyVal.pyInt y) →
      dictGet data "month" = some (PyVal.pyInt mo) →
      dictGet data "day" = some (PyVal.pyInt dy) →
      dictGet data "hour" = some (PyVal.pyInt hr) →
      dictGet data "minute" = some (PyVal.pyInt mins) →
      env.astro.mkSubject (nameArg data) y mo dy hr mins (some (pyTitle c))
        fb.lat fb.lng fb.tz = Except.ok u →
      env.astro.mkSubject "Now" env.nowYear env.nowMonth env.nowDay
        env.nowHour env.nowMinute none fb.lat fb.lng fb.tz = Except.ok w →
      u.sun ≠ "" → u.moon ≠ "" → u.firstHouse ≠ "" →
      generate_chart env st data =
        ⟨⟨200, RespBody.success ⟨u.sun, u.moon, u.firstHouse, defaultResults⟩⟩,
         (lruGetLocation env.geo st c).cache, false⟩ ∧
      u.sun ≠ "" ∧ u.moon ≠ "" ∧ u.firstHouse ≠ "") := by
  constructor
  · intro cfg a b t hfail
    unfold call_llm
    rcases hfail with hA | hC | ⟨m, hR⟩
    · rw [hA]
      rfl
    · rw [hC]
      simp
    · rw [hR]
      split <;> rfl
  · intro env st data c fb y mo dy hr mins u w hv hc hfb hllm hy hmo hdy hhr
      hmin hu hw hs1 hs2 hs3
    refine ⟨?_, hs1, hs2, hs3⟩
    have hval : (lruGetLocation env.geo st c).value =
        { lat := fb.lat, lng := fb.lng, tz := fb.tz, city := pyTitle c } := by
      rw [lru_value_valid env.geo st c hv, get_location_fallback env.geo c fb hfb]
    have hnet := lru_fallback_noNetwork env.geo st c fb hfb
    have hcall : ∀ p q : String, call_llm env.llm p q 2500 = none := by
      intro p q
      unfold call_llm
      rw [hllm]
      rfl
    have hrest : restOfPipeline env data
        ({ lat := fb.lat, lng := fb.lng, tz := fb.tz, city := pyTitle c } :
          LocationRecord) =
        Except.ok ⟨u.sun, u.moon, u.firstHouse, defaultResults⟩ := by
      unfold restOfPipeline
      rw [intField_of_pyInt hy, intField_of_pyInt hmo, intField_of_pyInt hdy,
          intField_of_pyInt hhr, intField_of_pyInt hmin]
      dsimp only
      rw [hu, hw]
      dsimp only
      rw [hcall]
      rfl
    rw [generate_chart_str env st data c hc, hval, hrest, hnet]

/-- Witness for C9 at a concrete request for `delhi`, an unconfigured
gateway, and a succeeding astrology engine. -/
theorem llm_failure_pipeline_witness :
    call_llm offLlm system_prompt "user prompt" 2500 = none ∧
    generate_chart okEnv [] reqDelhi =
      ⟨⟨200, RespBody.success ⟨"Leo", "Cancer", "Virgo", defaultResults⟩⟩,
       [("delhi", ⟨28.6139, 77.2090, "Asia/Kolkata", "Delhi"⟩)], false⟩ := by
  constructor
  · exact llm_failure_pipeline.1 offLlm system_prompt "user prompt" 2500 (Or.inl rfl)
  · have h := llm_failure_pipeline.2 okEnv [] reqDelhi "delhi"
      ⟨28.6139, 77.2090, "Asia/Kolkata"⟩ 1990 5 17 8 30 subj0 subj0
      (fun p hp => absurd hp (List.not_mem_nil p)) rfl rfl rfl rfl rfl rfl rfl
      rfl rfl rfl (by decide) (by decide) (by decide)
    exact h.1

/-- C10: when the request body has no `city` field, the handler resolves
the literal string `"New York"`, which hits the fallback table: the New
York coordinates and `America/New_York` timezone are used and no
geocoding network call happens. -/
theorem missing_city_new_york (env : Env) (st : CacheState) (data : PyDict)
    (h : dictGet data "city" = none) (hv : CacheValid env.geo st) :
    cityArg data = PyVal.pyStr "New York" ∧
    (lruGetLocation env.geo st "New York").value =
      { lat := 40.7128, lng := -74.0060, tz := "America/New_York",
        city := "New York" } ∧
    (lruGetLocation env.geo st "New York").usedNetwork = false := by
  refine ⟨?_, ?_, ?_⟩
  · unfold cityArg
    rw [h]
  · rw [lru_value_valid env.geo st "New York" hv]
    rfl
  · exact lru_fallback_noNetwork env.geo st "New York"
      ⟨40.7128, -74.0060, "America/New_York"⟩ rfl

/-- Witness for C10 at a request body holding only a `year` field. -/
theorem missing_city_new_york_witness :
    dictGet [("year", PyVal.pyInt 2000)] "city" = none ∧
    cityArg [("year", PyVal.pyInt 2000)] = PyVal.pyStr "New York" ∧
    (lruGetLocation testEnv.geo [] "New York").value =
      { lat := 40.7128, lng := -74.0060, tz := "America/New_York",
        city := "New York" } ∧
    (lruGetLocation testEnv.geo [] "New York").usedNetwork = false := by
  have h := missing_city_new_york testEnv [] [("year", PyVal.pyInt 2000)] rfl
    (fun p hp => absurd hp (List.not_mem_nil p))
  exact ⟨rfl, h.1, h.2.1, h.2.2⟩

end Aura
